import Mathlib

/-!
# Verification of the client-side business-profile UI glue

Shallow embedding of the browser-side code of the business-model-canvas
repository, centred on:

* the token-scoped attachment store held in `window` globals
  (`tempBusinessImage`, `tempBusinessPdf`, `tempBusinessPdfName` and their
  `_<token>`-suffixed scoped copies), written by
  `ProfileManager.handleFileSelect` and swept by
  `ProfileManager.clearAllBusinessFiles`;
* the base64 transcoding performed by `readFileAsBase64`
  (`FileReader.readAsDataURL`, split on `","`, strip CR/LF);
* the outgoing `/chat/business` payload built by
  `ApiService.sendBusinessMessage` and its canned fallback;
* form submission (`ProfileManager.handleSubmit`) with its comma-split
  list fields and the client-side UUID-v4 token generator
  `generateSecureToken`;
* the two `validateToken` variants present in the sources.

JavaScript `null`/`undefined` slots are modelled as `none`; string
truthiness (`if (x)`) is `jsTruthy`.
-/

/-- A byte of file content. -/
abbrev Byte := Fin 256

/-- The two attachment kinds handled by `handleFileSelect(event, type)`. -/
inductive FileKind where
  | image
  | pdf
deriving DecidableEq

/-- A selected file: `file.name` and its raw bytes (`file.size` is the byte
count). -/
structure JsFile where
  name : String
  content : List Byte

/-- `file.size`. -/
def fileSize (f : JsFile) : Nat := f.content.length

/-- JavaScript truthiness of a string-or-null/undefined value: `null`,
`undefined` and `""` are falsy. -/
def jsTruthy : Option String → Bool
  | none => false
  | some s => s != ""

/-- The `window` globals used as the attachment store.  The three scoped
maps model the dynamically named globals `tempBusinessImage_<token>`,
`tempBusinessPdf_<token>` and `tempBusinessPdfName_<token>`; since the
three name stems differ pairwise at a fixed character position, distinct
stems never collide and three separate maps are an exact model. -/
structure Store where
  tempBusinessImage : Option String
  tempBusinessPdf : Option String
  tempBusinessPdfName : Option String
  scopedImage : String → Option String
  scopedPdf : String → Option String
  scopedPdfName : String → Option String

/-- A fresh `window`: no attachment globals set. -/
def emptyStore : Store :=
  { tempBusinessImage := none
    tempBusinessPdf := none
    tempBusinessPdfName := none
    scopedImage := fun _ => none
    scopedPdf := fun _ => none
    scopedPdfName := fun _ => none }

/-- Point update of a scoped map (assignment to one dynamically named
global). -/
def updScoped (m : String → Option String) (k : String) (v : Option String) :
    String → Option String :=
  fun t => if t = k then v else m t

/-- The spec's `get(token, kind)`: the token-scoped store read
(`window[`tempBusinessImage_<token>`]` / `window[`tempBusinessPdf_<token>`]`,
as performed e.g. when re-opening a profile in the session). -/
def Store.get (s : Store) (token : String) : FileKind → Option String
  | .image => s.scopedImage token
  | .pdf => s.scopedPdf token

/-! ## Base64 (the browser's `FileReader.readAsDataURL` encoding) -/

/-- The standard base64 alphabet. -/
def b64Alphabet : List Char :=
  "ABCDEFGHIJKLMNOPQRSTUVWXYZabcdefghijklmnopqrstuvwxyz0123456789+/".toList

/-- The base64 digit for a 6-bit value. -/
def b64Char (n : Nat) : Char := b64Alphabet.getD (n % 64) 'A'

/-- Standard base64 encoding of a byte sequence, three bytes to four
characters, `'='`-padded.  This models the encoding half of
`FileReader.readAsDataURL`. -/
def encB64 : List Byte → List Char
  | [] => []
  | [b1] =>
      [b64Char (b1.val / 4), b64Char (b1.val % 4 * 16), '=', '=']
  | [b1, b2] =>
      [b64Char (b1.val / 4), b64Char (b1.val % 4 * 16 + b2.val / 16),
       b64Char (b2.val % 16 * 4), '=']
  | b1 :: b2 :: b3 :: rest =>
      b64Char (b1.val / 4) :: b64Char (b1.val % 4 * 16 + b2.val / 16)
        :: b64Char (b2.val % 16 * 4 + b3.val / 64) :: b64Char (b3.val % 64)
        :: encB64 rest

/-- Index scan over the alphabet. -/
def b64IndexAux : List Char → Char → Nat → Option Nat
  | [], _, _ => none
  | a :: rest, c, i => if a = c then some i else b64IndexAux rest c (i + 1)

/-- The 6-bit value of a base64 digit, `none` for a non-alphabet
character. -/
def b64Index (c : Char) : Option Nat := b64IndexAux b64Alphabet c 0

/-- Truncate a natural number into a byte. -/
def mk256 (n : Nat) : Byte := ⟨n % 256, Nat.mod_lt n (by norm_num)⟩

/-- Standard base64 decoding, four characters to three bytes, accepting
`'='`-padding only in a final chunk. -/
def decB64 : List Char → Option (List Byte)
  | [] => some []
  | c1 :: c2 :: c3 :: c4 :: rest =>
    match b64Index c1, b64Index c2 with
    | some n1, some n2 =>
      if c3 = '=' then
        if c4 = '=' ∧ rest = [] then some [mk256 (n1 * 4 + n2 / 16)] else none
      else
        match b64Index c3 with
        | some n3 =>
          if c4 = '=' then
            if rest = [] then
              some [mk256 (n1 * 4 + n2 / 16), mk256 (n2 % 16 * 16 + n3 / 4)]
            else none
          else
            match b64Index c4, decB64 rest with
            | some n4, some ds =>
                some (mk256 (n1 * 4 + n2 / 16) :: mk256 (n2 % 16 * 16 + n3 / 4)
                  :: mk256 (n3 % 4 * 64 + n4) :: ds)
            | _, _ => none
        | none => none
    | _, _ => none
  | _ => none

/-- Each base64 digit decodes back to its 6-bit value. -/
theorem b64Index_b64Char : ∀ n, n < 64 → b64Index (b64Char n) = some n := by
  decide

/-- A base64 digit is never the padding character. -/
theorem b64Char_ne_pad (n : Nat) : b64Char n ≠ '=' := by
  have h : n % 64 < 64 := Nat.mod_lt _ (by norm_num)
  have hall : ∀ m, m < 64 → b64Alphabet.getD m 'A' ≠ '=' := by decide
  exact hall _ h

/-- Decoding inverts encoding: the stored base64 text reproduces the
original file bytes. -/
theorem decB64_encB64 : ∀ bs : List Byte, decB64 (encB64 bs) = some bs
  | [] => rfl
  | [⟨v1, h1⟩] => by
      simp only [encB64, decB64]
      rw [b64Index_b64Char _ (by omega), b64Index_b64Char _ (by omega)]
      simp only [mk256, Option.some.injEq, List.cons.injEq, and_true,
        Fin.mk.injEq, if_pos rfl, and_self, reduceIte]
      omega
  | [⟨v1, h1⟩, ⟨v2, h2⟩] => by
      simp only [encB64, decB64]
      rw [b64Index_b64Char _ (by omega), b64Index_b64Char _ (by omega)]
      simp only [if_neg (b64Char_ne_pad _)]
      rw [b64Index_b64Char _ (by omega)]
      simp only [mk256, Option.some.injEq, List.cons.injEq, and_true,
        Fin.mk.injEq, if_pos rfl, and_self, reduceIte]
      omega
  | ⟨v1, h1⟩ :: ⟨v2, h2⟩ :: ⟨v3, h3⟩ :: rest => by
      have ih := decB64_encB64 rest
      simp only [encB64, decB64]
      rw [b64Index_b64Char _ (by omega), b64Index_b64Char _ (by omega)]
      simp only [if_neg (b64Char_ne_pad _)]
      rw [b64Index_b64Char _ (by omega), b64Index_b64Char _ (by omega)]
      simp only [ih, mk256, Option.some.injEq, List.cons.injEq, and_true,
        Fin.mk.injEq, if_neg (b64Char_ne_pad _)]
      refine ⟨by omega, by omega, by omega⟩

/-! ## `readFileAsBase64`: data-URL split and line-break stripping -/

/-- JavaScript `String.prototype.split` with a one-character separator,
modelled on character lists: `"".split(sep)` is `[""]`, empty fields are
kept. -/
def jsSplitChar (sep : Char) : List Char → List (List Char)
  | [] => [[]]
  | c :: rest =>
    let r := jsSplitChar sep rest
    if c = sep then [] :: r else (c :: r.headD []) :: r.tail

/-- A separator-free string splits to a single field. -/
theorem jsSplitChar_of_not_mem {sep : Char} :
    ∀ {l : List Char}, sep ∉ l → jsSplitChar sep l = [l]
  | [], _ => rfl
  | c :: rest, h => by
      have hc : ¬c = sep := fun hcs => h (hcs ▸ List.mem_cons_self c rest)
      have hr : jsSplitChar sep rest = [rest] :=
        jsSplitChar_of_not_mem (fun hm => h (List.mem_cons_of_mem c hm))
      simp [jsSplitChar, hr, hc]

/-- Splitting at the first separator: a separator-free part before the
separator becomes the first field. -/
theorem jsSplitChar_append {sep : Char} :
    ∀ {p : List Char} (e : List Char), sep ∉ p →
      jsSplitChar sep (p ++ sep :: e) = p :: jsSplitChar sep e
  | [], e, _ => by simp [jsSplitChar]
  | c :: p, e, h => by
      have hc : ¬c = sep := fun hcs => h (hcs ▸ List.mem_cons_self c p)
      have hr := jsSplitChar_append (p := p) e
        (fun hm => h (List.mem_cons_of_mem c hm))
      simp [jsSplitChar, hr, hc]

/-- Every character the encoder emits is a base64 digit or the padding
character; in particular never a comma, line feed or carriage return. -/
theorem encB64_chars :
    ∀ (bs : List Byte) (c : Char), c ∈ encB64 bs →
      c ≠ ',' ∧ c ≠ '\n' ∧ c ≠ '\r'
  | [], _, h => by simp [encB64] at h
  | [b1], c, h => by
      have hd : ∀ m, m < 64 →
          b64Alphabet.getD m 'A' ≠ ',' ∧ b64Alphabet.getD m 'A' ≠ '\n' ∧
            b64Alphabet.getD m 'A' ≠ '\r' := by decide
      have hb : ∀ n : Nat, b64Char n ≠ ',' ∧ b64Char n ≠ '\n' ∧
          b64Char n ≠ '\r' := fun n => hd _ (Nat.mod_lt _ (by norm_num))
      simp only [encB64, List.mem_cons, List.not_mem_nil, or_false] at h
      rcases h with h | h | h | h <;> subst h <;>
        first
          | exact hb _
          | exact ⟨by decide, by decide, by decide⟩
  | [b1, b2], c, h => by
      have hd : ∀ m, m < 64 →
          b64Alphabet.getD m 'A' ≠ ',' ∧ b64Alphabet.getD m 'A' ≠ '\n' ∧
            b64Alphabet.getD m 'A' ≠ '\r' := by decide
      have hb : ∀ n : Nat, b64Char n ≠ ',' ∧ b64Char n ≠ '\n' ∧
          b64Char n ≠ '\r' := fun n => hd _ (Nat.mod_lt _ (by norm_num))
      simp only [encB64, List.mem_cons, List.not_mem_nil, or_false] at h
      rcases h with h | h | h | h <;> subst h <;>
        first
          | exact hb _
          | exact ⟨by decide, by decide, by decide⟩
  | b1 :: b2 :: b3 :: rest, c, h => by
      have hd : ∀ m, m < 64 →
          b64Alphabet.getD m 'A' ≠ ',' ∧ b64Alphabet.getD m 'A' ≠ '\n' ∧
            b64Alphabet.getD m 'A' ≠ '\r' := by decide
      have hb : ∀ n : Nat, b64Char n ≠ ',' ∧ b64Char n ≠ '\n' ∧
          b64Char n ≠ '\r' := fun n => hd _ (Nat.mod_lt _ (by norm_num))
      simp only [encB64, List.mem_cons] at h
      rcases h with h | h | h | h | h
      · exact h ▸ hb _
      · exact h ▸ hb _
      · exact h ▸ hb _
      · exact h ▸ hb _
      · exact encB64_chars rest c h

/-- The character list of the data URL produced by
`FileReader.readAsDataURL(file)`: `data:<mime>;base64,<payload>`. -/
def dataUrlChars (mime : String) (f : JsFile) : List Char :=
  "data:".toList ++ mime.toList ++ ";base64,".toList ++ encB64 f.content

/-- `ProfileManager.readFileAsBase64`: take the data URL, split on `","`,
keep field 1, and delete every `\n` and `\r`
(`reader.result.split(",")[1]` then `.replace(/[\n\r]/g, "")`). -/
def readFileAsBase64 (mime : String) (f : JsFile) : String :=
  String.mk (((jsSplitChar ',' (dataUrlChars mime f)).getD 1 []).filter
    (fun c => !(c = '\n' || c = '\r')))

/-- For a comma-free MIME type, `readFileAsBase64` returns exactly the
base64 encoding of the file bytes: the data-URI front matter is dropped
and stripping line breaks is a no-op. -/
theorem readFileAsBase64_eq (mime : String) (f : JsFile)
    (hm : ',' ∉ mime.toList) :
    readFileAsBase64 mime f = String.mk (encB64 f.content) := by
  have hsplit : dataUrlChars mime f
      = ("data:".toList ++ mime.toList ++ ";base64".toList)
        ++ ',' :: encB64 f.content := by
    simp [dataUrlChars, show ";base64,".toList = ";base64".toList ++ [','] by
      decide]
  have hp : ',' ∉ "data:".toList ++ mime.toList ++ ";base64".toList := by
    intro hmem
    rcases List.mem_append.mp hmem with hmem | hmem
    · rcases List.mem_append.mp hmem with hmem | hmem
      · exact absurd hmem (by decide)
      · exact hm hmem
    · exact absurd hmem (by decide)
  have henc : ',' ∉ encB64 f.content :=
    fun hmem => (encB64_chars f.content ',' hmem).1 rfl
  have h2 : jsSplitChar ',' (dataUrlChars mime f)
      = ("data:".toList ++ mime.toList ++ ";base64".toList)
        :: [encB64 f.content] := by
    rw [hsplit, jsSplitChar_append _ hp, jsSplitChar_of_not_mem henc]
  have hfilter : (encB64 f.content).filter
      (fun c => !(c = '\n' || c = '\r')) = encB64 f.content := by
    apply List.filter_eq_self.mpr
    intro c hc
    have := encB64_chars f.content c hc
    simp [this.2.1, this.2.2]
  rw [readFileAsBase64, h2]
  exact congrArg String.mk hfilter

/-! ## `ProfileManager.handleFileSelect` and `clearAllBusinessFiles` -/

/-- The upper-cased kind used in the size alert
(`type.toUpperCase()`). -/
def kindUpper : FileKind → String
  | .image => "IMAGE"
  | .pdf => "PDF"

/-- The lower-cased kind used in the read-failure alert. -/
def kindLower : FileKind → String
  | .image => "image"
  | .pdf => "pdf"

/-- `ProfileManager.handleFileSelect(event, type)` for a selected file.
`token` is `this.getCurrentBusinessToken()` at the time of the call and
`readOk` is whether `readFileAsBase64`'s promise resolves (`FileReader`
success).  Returns the updated `window` store and the alert text shown.

Order of effects in the source: the 5 MiB size check comes first and
returns before any encoding; on success the unscoped legacy global is
always written, and the token-scoped global additionally when a truthy
token is available; the PDF branch also records `file.name`. -/
def handleFileSelect (s : Store) (kind : FileKind) (f : JsFile)
    (mime : String) (token : Option String) (readOk : Bool) :
    Store × String :=
  if fileSize f > 5 * 1024 * 1024 then
    (s, kindUpper kind ++ " size must be less than 5MB")
  else if !readOk then
    (s, "Failed to process " ++ kindLower kind ++ ".")
  else
    let base64 := readFileAsBase64 mime f
    match kind with
    | .image =>
        let s1 := { s with tempBusinessImage := some base64 }
        let s2 :=
          if jsTruthy token then
            { s1 with scopedImage :=
                updScoped s1.scopedImage (token.getD "") (some base64) }
          else s1
        (s2, "Image Ready!")
    | .pdf =>
        let s1 := { s with tempBusinessPdf := some base64,
                           tempBusinessPdfName := some f.name }
        let s2 :=
          if jsTruthy token then
            { s1 with
                scopedPdf :=
                  updScoped s1.scopedPdf (token.getD "") (some base64),
                scopedPdfName :=
                  updScoped s1.scopedPdfName (token.getD "") (some f.name) }
          else s1
        (s2, "PDF Ready!")

/-- `ProfileManager.clearAllBusinessFiles()`: null the three legacy
globals, then null every global whose name starts with
`tempBusinessImage_`, `tempBusinessPdf_` or `tempBusinessPdfName_` —
i.e. every entry of the three scoped maps, for every token. -/
def clearAllBusinessFiles (_s : Store) : Store :=
  { tempBusinessImage := none
    tempBusinessPdf := none
    tempBusinessPdfName := none
    scopedImage := fun _ => none
    scopedPdf := fun _ => none
    scopedPdfName := fun _ => none }

/-! ## `ApiService.sendBusinessMessage` and the canned fallback -/

/-- A philosopher or business-expert descriptor as used by the UI
(`character.id`, `character.name`, `character.domain`). -/
structure Character where
  id : String
  name : Option String
  domain : Option String

/-- The JSON body posted to `/chat/business`; `none` fields are absent
from the object. -/
structure ChatPayload where
  message : String
  expert_id : String
  user_token : String
  image_base64 : Option String
  pdf_base64 : Option String
  pdf_name : Option String
deriving DecidableEq

/-- The outcome of `fetch` + `response.json()` for a chat request:
either the fetch rejects, or a response arrives with its `ok` flag,
status information, whether the body parses as JSON, and the parsed
body's `response` field. -/
inductive FetchResult where
  | netError
  | resp (ok : Bool) (status : Nat) (statusText : String)
      (jsonOk : Bool) (respField : String)

/-- `ApiService.getFallbackResponse(character)`: canned unavailability
text; the subject is the character's name when truthy, else
"the business expert" / "the philosopher" depending on `domain`. -/
def getFallbackResponse (c : Character) : String :=
  let ty := if jsTruthy c.domain then "business expert" else "philosopher"
  let nm := if jsTruthy c.name then c.name.getD "" else "the " ++ ty
  "I'm sorry, " ++ nm ++ " is unavailable at the moment. Please try again later."

/-- Payload construction inside `ApiService.sendBusinessMessage` (the
revision at ApiService.js:223-284): the attachment fields are read from
the unscoped globals `window.tempBusinessImage`, `window.tempBusinessPdf`
and `window.tempBusinessPdfName` only, each attached when truthy. -/
def buildBusinessPayload (s : Store) (expert : Character)
    (message userToken : String) : ChatPayload :=
  let payload : ChatPayload :=
    { message := message, expert_id := expert.id, user_token := userToken,
      image_base64 := none, pdf_base64 := none, pdf_name := none }
  let payload :=
    if jsTruthy s.tempBusinessImage then
      { payload with image_base64 := s.tempBusinessImage }
    else payload
  if jsTruthy s.tempBusinessPdf then
    { payload with pdf_base64 := s.tempBusinessPdf,
                   pdf_name := s.tempBusinessPdfName }
  else payload

/-- The string `ApiService.sendBusinessMessage` resolves with: the
`response` field of a parsed 2xx body, and otherwise — the fetch
rejected, `response.ok` was false (`request` throws
`API error: <status>`), or the body failed to parse — the catch block
returns `getFallbackResponse(expert)`. -/
def sendBusinessMessage (_s : Store) (expert : Character)
    (_message _userToken : String) (net : FetchResult) : String :=
  match net with
  | .netError => getFallbackResponse expert
  | .resp ok _ _ jsonOk respField =>
      if ok && jsonOk then respField else getFallbackResponse expert

/-! ## `ProfileManager.handleSubmit` and `generateSecureToken` -/

/-- ASCII JavaScript whitespace (the characters `String.prototype.trim`
removes that can occur in form input). -/
def isJsSpace (c : Char) : Bool :=
  c = ' ' || c = '\t' || c = '\n' || c = '\r' || c = '\x0b' || c = '\x0c'

/-- JavaScript `String.prototype.trim`. -/
def jsTrim (s : String) : String :=
  String.mk (((s.toList.dropWhile isJsSpace).reverse.dropWhile
    isJsSpace).reverse)

/-- JavaScript `value.split(",")` on strings. -/
def jsSplitComma (s : String) : List String :=
  (jsSplitChar ',' s.toList).map String.mk

/-- The `formData` object collected by `ProfileManager.handleSubmit`:
trimmed scalar fields, and `challenges`/`goals` comma-split, per-element
trimmed, with falsy (empty) elements dropped
(`.split(",").map(s => s.trim()).filter(s => s)`). -/
structure ProfileFormData where
  owner_name : String
  business_name : String
  sector : String
  challenges : List String
  goals : List String

/-- Collect the form fields as `handleSubmit` does. -/
def profileFormData (owner business sector challenges goals : String) :
    ProfileFormData :=
  { owner_name := jsTrim owner
    business_name := jsTrim business
    sector := jsTrim sector
    challenges := ((jsSplitComma challenges).map jsTrim).filter
      (fun s => s ≠ "")
    goals := ((jsSplitComma goals).map jsTrim).filter (fun s => s ≠ "") }

/-- The hexadecimal digit produced by `v.toString(16)` for `v < 16`. -/
def hexDigit (n : Nat) : Char := "0123456789abcdef".toList.getD (n % 16) '0'

/-- The template replacement of `generateSecureToken`: each `x` becomes a
random hex digit `r`, each `y` becomes `(r & 0x3) | 0x8`; other characters
pass through.  `rand i` is the `i`-th value of `(Math.random() * 16) | 0`. -/
def replaceXY (rand : Nat → Fin 16) : List Char → Nat → List Char
  | [], _ => []
  | c :: cs, i =>
      if c = 'x' then hexDigit (rand i).val :: replaceXY rand cs (i + 1)
      else if c = 'y' then
        hexDigit ((rand i).val % 4 + 8) :: replaceXY rand cs (i + 1)
      else c :: replaceXY rand cs i

/-- `ProfileManager.generateSecureToken()`. -/
def generateSecureToken (rand : Nat → Fin 16) : String :=
  String.mk (replaceXY rand "xxxxxxxx-xxxx-4xxx-yxxx-xxxxxxxxxxxx".toList 0)

/-- The profile body sent to the backend: the form data plus `token` and,
for creation, `role`. -/
structure ProfilePayload where
  form : ProfileFormData
  token : String
  role : Option String

/-- What `handleSubmit` does after collecting the form: either an alert
with no network call, a `POST /business/user`, a `PUT
/business/user/{token}`, or nothing. -/
inductive SubmitAction where
  | alertMissingFields
  | createPost (p : ProfilePayload)
  | updatePut (token : String) (p : ProfilePayload)
  | noRequest

/-- `ProfileManager.handleSubmit()`: validate required fields (truthiness
of the trimmed `owner_name`/`business_name`), then in create mode attach a
generated token and `role = "user"` and POST; in edit mode with a truthy
`this.editToken` resend the full record under that token via PUT. -/
def handleSubmit (mode : String) (editToken : Option String)
    (owner business sector challenges goals : String)
    (rand : Nat → Fin 16) : SubmitAction :=
  let formData := profileFormData owner business sector challenges goals
  if formData.owner_name = "" || formData.business_name = "" then
    .alertMissingFields
  else if mode = "create" then
    .createPost { form := formData, token := generateSecureToken rand,
                  role := some "user" }
  else if mode = "edit" && jsTruthy editToken then
    .updatePut (editToken.getD "")
      { form := formData, token := editToken.getD "", role := none }
  else .noRequest

/-! ## The two `validateToken` variants -/

/-- The `{valid, role?, user?}` object from
`GET /business/tokens/validate`. -/
structure TokenValidation where
  valid : Bool
  role : Option String
  user : Option String
deriving DecidableEq

/-- The object the catch blocks return: `{ valid: false }`. -/
def invalidResult : TokenValidation :=
  { valid := false, role := none, user := none }

/-- The outcome of the validation fetch: rejected, or a response with its
`ok` flag, whether the body parses as JSON, and the parsed body. -/
inductive ValidateNet where
  | netError
  | resp (ok : Bool) (jsonOk : Bool) (body : TokenValidation)

/-- `ApiService.validateToken` (ApiService.js:65-86): throws on
`!response.ok`, so the catch block maps a network error, a non-2xx
status, or an unparseable body to `{ valid: false }`. -/
def validateToken (net : ValidateNet) : TokenValidation :=
  match net with
  | .netError => invalidResult
  | .resp ok jsonOk body =>
      if ok then (if jsonOk then body else invalidResult) else invalidResult

/-- The `validateToken` of the standalone profile script (unnamed
part_002:86-97): no `response.ok` check — the parsed body of any response
is returned as-is; only a rejected fetch or an unparseable body yields
`{ valid: false }`. -/
def validateTokenNoOkCheck (net : ValidateNet) : TokenValidation :=
  match net with
  | .netError => invalidResult
  | .resp _ jsonOk body => if jsonOk then body else invalidResult

/-! ## Claim theorems -/

/-- C3: oversize rejection is atomic — for every store, token and kind, a
file larger than 5 MiB makes `handleFileSelect` alert the size-limit
message and return with every slot of the store exactly as before; the
size check precedes any encoding. -/
theorem handleFileSelect_oversize_atomic (s : Store) (kind : FileKind)
    (f : JsFile) (mime : String) (token : Option String) (readOk : Bool)
    (h : fileSize f > 5 * 1024 * 1024) :
    handleFileSelect s kind f mime token readOk
      = (s, kindUpper kind ++ " size must be less than 5MB") := by
  simp [handleFileSelect, h]

/-- A file one byte over the 5 MiB limit. -/
def oversizeFile : JsFile :=
  { name := "big.pdf", content := List.replicate (5 * 1024 * 1024 + 1) 0 }

/-- Witness for C3 at a concrete oversize PDF. -/
theorem handleFileSelect_oversize_atomic_witness :
    fileSize oversizeFile > 5 * 1024 * 1024 ∧
    handleFileSelect emptyStore .pdf oversizeFile "application/pdf"
        (some "abc") true
      = (emptyStore, "PDF size must be less than 5MB") := by
  have h : fileSize oversizeFile > 5 * 1024 * 1024 := by
    simp only [fileSize, oversizeFile, List.length_replicate]
    omega
  exact ⟨h, handleFileSelect_oversize_atomic _ _ _ _ _ _ h⟩

/-- C4: `clearAllBusinessFiles` is complete — afterwards the scoped read
`get (t, kind)` is absent for every token and kind, the scoped
PDF-filename slot is absent for every token, and the three unscoped
legacy globals are null, whatever the store held before. -/
theorem clearAllBusinessFiles_complete (s : Store) (t : String)
    (k : FileKind) :
    (clearAllBusinessFiles s).get t k = none ∧
    (clearAllBusinessFiles s).scopedPdfName t = none ∧
    (clearAllBusinessFiles s).tempBusinessImage = none ∧
    (clearAllBusinessFiles s).tempBusinessPdf = none ∧
    (clearAllBusinessFiles s).tempBusinessPdfName = none := by
  cases k <;> simp [Store.get, clearAllBusinessFiles]

/-- C9: the attachment fields of the outgoing `/chat/business` payload
are read solely from the unscoped globals — in one and the same store
state the payloads built for two different user tokens carry identical
`image_base64`, `pdf_base64` and `pdf_name`, while `user_token` itself is
the argument. -/
theorem buildBusinessPayload_token_independent
    (s : Store) (e : Character) (m t1 t2 : String) :
    (buildBusinessPayload s e m t1).image_base64
        = (buildBusinessPayload s e m t2).image_base64 ∧
    (buildBusinessPayload s e m t1).pdf_base64
        = (buildBusinessPayload s e m t2).pdf_base64 ∧
    (buildBusinessPayload s e m t1).pdf_name
        = (buildBusinessPayload s e m t2).pdf_name ∧
    (buildBusinessPayload s e m t1).user_token = t1 := by
  unfold buildBusinessPayload
  cases h1 : jsTruthy s.tempBusinessImage <;>
    cases h2 : jsTruthy s.tempBusinessPdf <;> simp

/-- C2: attach/get round-trip — for every store, active token and file
accepted by `handleFileSelect` (within the size limit, readable, with a
comma-free MIME type), the scoped read with the same `(token, kind)`
returns exactly the stored text; that text is the file's bytes
base64-encoded with the data-URI front matter dropped and all line breaks
stripped; for PDFs the original filename is stored alongside; and
decoding the stored text reproduces the original bytes. -/
theorem attach_get_roundtrip (s : Store) (f : JsFile) (mime : String)
    (kind : FileKind) (t : String) (ht : t ≠ "")
    (hsize : fileSize f ≤ 5 * 1024 * 1024) (hmime : ',' ∉ mime.toList) :
    ((handleFileSelect s kind f mime (some t) true).1).get t kind
        = some (String.mk (encB64 f.content)) ∧
    (kind = .pdf →
      ((handleFileSelect s kind f mime (some t) true).1).scopedPdfName t
        = some f.name) ∧
    readFileAsBase64 mime f = String.mk (encB64 f.content) ∧
    decB64 (encB64 f.content) = some f.content := by
  have henc := readFileAsBase64_eq mime f hmime
  have hsz : ¬fileSize f > 5 * 1024 * 1024 := by omega
  have htr : jsTruthy (some t) = true := by simp [jsTruthy, ht]
  cases kind <;>
    simp [handleFileSelect, hsz, htr, Store.get, updScoped, henc,
      decB64_encB64]

/-- A small concrete PDF file. -/
def sampleFile : JsFile := { name := "canvas.pdf", content := [77, 97, 110] }

/-- Witness for C2: attaching `sampleFile` as a PDF under token `"abc"`
and reading it back. -/
theorem attach_get_roundtrip_witness :
    ((handleFileSelect emptyStore .pdf sampleFile "application/pdf"
        (some "abc") true).1).get "abc" .pdf
      = some (String.mk (encB64 sampleFile.content)) ∧
    (FileKind.pdf = .pdf →
      ((handleFileSelect emptyStore .pdf sampleFile "application/pdf"
          (some "abc") true).1).scopedPdfName "abc"
        = some sampleFile.name) ∧
    readFileAsBase64 "application/pdf" sampleFile
      = String.mk (encB64 sampleFile.content) ∧
    decB64 (encB64 sampleFile.content) = some sampleFile.content :=
  attach_get_roundtrip emptyStore sampleFile "application/pdf" .pdf "abc"
    (by decide) (by decide) (by decide)

/-- A small concrete image file ([0,0,0] encodes to "AAAA"). -/
def sampleImage : JsFile := { name := "pic.png", content := [0, 0, 0] }

/-- A concrete business expert. -/
def egExpert : Character :=
  { id := "alan", name := some "Alan", domain := some "marketing" }

/-- C1 counterexample: attaching an image while `"t1"` is the active
token makes that very attachment visible to the outgoing chat payload
built for the distinct token `"t2"` — `handleFileSelect` also writes the
unscoped `tempBusinessImage` global, and `sendBusinessMessage` reads only
the unscoped globals, so the payload for `"t2"` embeds the attachment
stored under `"t1"`. -/
theorem attach_visible_across_tokens :
    "t1" ≠ "t2" ∧
    (buildBusinessPayload
        ((handleFileSelect emptyStore .image sampleImage "image/png"
            (some "t1") true).1) egExpert "hello" "t2").image_base64
      = some (readFileAsBase64 "image/png" sampleImage) ∧
    readFileAsBase64 "image/png" sampleImage = "AAAA" := by
  decide

/-- C1 amended: isolation does hold for the token-scoped slots — for
distinct tokens, attaching a file while `t1` is the active token leaves
every scoped slot of `t2` (both `get` kinds and the PDF filename)
exactly as it was; only the unscoped legacy globals, which the outgoing
chat payload reads, are overwritten across tokens. -/
theorem attach_scoped_isolation (s : Store) (kind : FileKind) (f : JsFile)
    (mime : String) (t1 t2 : String) (readOk : Bool) (hne : t2 ≠ t1) :
    (∀ k, ((handleFileSelect s kind f mime (some t1) readOk).1).get t2 k
        = s.get t2 k) ∧
    ((handleFileSelect s kind f mime (some t1) readOk).1).scopedPdfName t2
      = s.scopedPdfName t2 := by
  have hupd : ∀ (m : String → Option String) (v : Option String),
      updScoped m t1 v t2 = m t2 := by
    intro m v
    simp [updScoped, hne]
  constructor
  · intro k
    by_cases hsz : fileSize f > 5 * 1024 * 1024 <;>
      cases readOk <;> cases kind <;> cases k <;>
      cases htr : jsTruthy (some t1) <;>
      simp [handleFileSelect, hsz, htr, Store.get, hupd]
  · by_cases hsz : fileSize f > 5 * 1024 * 1024 <;>
      cases readOk <;> cases kind <;>
      cases htr : jsTruthy (some t1) <;>
      simp [handleFileSelect, hsz, htr, hupd]

/-- Witness for the amended C1 at concrete distinct tokens. -/
theorem attach_scoped_isolation_witness :
    ("t2" : String) ≠ "t1" ∧
    ((∀ k, ((handleFileSelect emptyStore .image sampleImage "image/png"
        (some "t1") true).1).get "t2" k = emptyStore.get "t2" k) ∧
     ((handleFileSelect emptyStore .image sampleImage "image/png"
        (some "t1") true).1).scopedPdfName "t2"
       = emptyStore.scopedPdfName "t2") :=
  ⟨by decide,
   attach_scoped_isolation emptyStore .image sampleImage "image/png"
     "t1" "t2" true (by decide)⟩

/-- C5: `sendBusinessMessage` is total and never hard-fails — a rejected
fetch or a non-2xx status yields the canned unavailable-expert string
`getFallbackResponse(expert)`, and a parsed 2xx response yields the
body's `response` field. -/
theorem sendBusinessMessage_never_hard_fails (s : Store) (e : Character)
    (m tok : String) (net : FetchResult) :
    (net = .netError →
      sendBusinessMessage s e m tok net = getFallbackResponse e) ∧
    (∀ status statusText jsonOk r,
      net = .resp false status statusText jsonOk r →
      sendBusinessMessage s e m tok net = getFallbackResponse e) ∧
    (∀ status statusText r,
      net = .resp true status statusText true r →
      sendBusinessMessage s e m tok net = r) := by
  refine ⟨fun h => ?_, fun st stx j r h => ?_, fun st stx r h => ?_⟩ <;>
    subst h <;> simp [sendBusinessMessage]

/-- Witness for C5: a 500 response falls back to the canned string, whose
concrete value for `egExpert` is shown. -/
theorem sendBusinessMessage_never_hard_fails_witness :
    sendBusinessMessage emptyStore egExpert "hi" "t1"
        (.resp false 500 "Internal Server Error" true "ignored")
      = getFallbackResponse egExpert ∧
    getFallbackResponse egExpert
      = "I'm sorry, Alan is unavailable at the moment. Please try again later." :=
  ⟨(sendBusinessMessage_never_hard_fails emptyStore egExpert "hi" "t1"
      _).2.1 500 "Internal Server Error" true "ignored" rfl,
   by decide⟩

/-- C6: the `challenges` and `goals` lists of the collected form data are
the input field split on commas, each element trimmed, empty elements
dropped, in split order; in particular "a, b, c" yields
["a", "b", "c"]. -/
theorem profileFormData_comma_split (o b se ch gl : String) :
    (profileFormData o b se ch gl).challenges
        = ((jsSplitComma ch).map jsTrim).filter (fun s => s ≠ "") ∧
    (profileFormData o b se ch gl).goals
        = ((jsSplitComma gl).map jsTrim).filter (fun s => s ≠ "") ∧
    (profileFormData "Ann" "Acme" "tech" "a, b, c" "").challenges
        = ["a", "b", "c"] := by
  refine ⟨rfl, rfl, ?_⟩
  decide

/-- C8: a submission whose trimmed `owner_name` or trimmed
`business_name` is empty raises the blocking alert and issues no network
request, in any mode. -/
theorem handleSubmit_missing_required_fields (mode : String)
    (editToken : Option String) (o b se ch gl : String)
    (rand : Nat → Fin 16) (h : jsTrim o = "" ∨ jsTrim b = "") :
    handleSubmit mode editToken o b se ch gl rand = .alertMissingFields := by
  rcases h with h | h <;> simp [handleSubmit, profileFormData, h]

/-- Witness for C8: whitespace-only owner name. -/
theorem handleSubmit_missing_required_fields_witness :
    (jsTrim "   " = "" ∨ jsTrim "Acme" = "") ∧
    handleSubmit "create" none "   " "Acme" "tech" "a,b" "g" (fun _ => 0)
      = .alertMissingFields :=
  ⟨Or.inl (by decide),
   handleSubmit_missing_required_fields "create" none "   " "Acme" "tech"
     "a,b" "g" (fun _ => 0) (Or.inl (by decide))⟩

/-- Lowercase hexadecimal digit test. -/
def isLowerHexChar (c : Char) : Bool := "0123456789abcdef".toList.contains c

/-- Every `hexDigit` of a 4-bit random value is a lowercase hex digit. -/
theorem hexDigit_lower_hex : ∀ v : Fin 16, isLowerHexChar (hexDigit v.val) = true := by
  decide

/-- The `y`-template digit `(r & 0x3) | 0x8` is one of 8, 9, a, b. -/
theorem hexDigit_variant : ∀ v : Fin 16,
    hexDigit (v.val % 4 + 8) ∈ ['8', '9', 'a', 'b'] := by
  decide

/-- For every random stream, `generateSecureToken` produces a string of
UUID-v4 shape: five dash-separated groups of lengths 8-4-4-4-12, all
lowercase hex, with version digit `4` and variant digit in
`{8, 9, a, b}`. -/
theorem generateSecureToken_shape (rand : Nat → Fin 16) :
    ∃ (a b c d e : List Char) (y : Char),
      (generateSecureToken rand).toList
        = a ++ ('-' :: (b ++ ('-' :: '4' :: (c ++ ('-' :: y ::
            (d ++ ('-' :: e))))))) ∧
      a.length = 8 ∧ b.length = 4 ∧ c.length = 3 ∧ d.length = 3 ∧
      e.length = 12 ∧
      ((a ++ b ++ c ++ d ++ e).all isLowerHexChar) = true ∧
      y ∈ ['8', '9', 'a', 'b'] := by
  refine ⟨[hexDigit (rand 0).val, hexDigit (rand 1).val,
      hexDigit (rand 2).val, hexDigit (rand 3).val, hexDigit (rand 4).val,
      hexDigit (rand 5).val, hexDigit (rand 6).val, hexDigit (rand 7).val],
    [hexDigit (rand 8).val, hexDigit (rand 9).val, hexDigit (rand 10).val,
      hexDigit (rand 11).val],
    [hexDigit (rand 12).val, hexDigit (rand 13).val,
      hexDigit (rand 14).val],
    [hexDigit (rand 16).val, hexDigit (rand 17).val,
      hexDigit (rand 18).val],
    [hexDigit (rand 19).val, hexDigit (rand 20).val,
      hexDigit (rand 21).val, hexDigit (rand 22).val,
      hexDigit (rand 23).val, hexDigit (rand 24).val,
      hexDigit (rand 25).val, hexDigit (rand 26).val,
      hexDigit (rand 27).val, hexDigit (rand 28).val,
      hexDigit (rand 29).val, hexDigit (rand 30).val],
    hexDigit ((rand 15).val % 4 + 8),
    ?_, rfl, rfl, rfl, rfl, rfl, ?_, hexDigit_variant (rand 15)⟩
  · rfl
  · simp [hexDigit_lower_hex]

/-- C7: every create-mode submission that passes the required-field check
posts a payload whose `role` is `"user"` and whose `token` is the
client-generated `generateSecureToken()` value, which has UUID-v4 shape
(8-4-4-4-12 lowercase hex, version digit `4`, variant digit in
`{8, 9, a, b}`) for every possible random stream. -/
theorem handleSubmit_create_defaults (editToken : Option String)
    (o b se ch gl : String) (rand : Nat → Fin 16)
    (h1 : jsTrim o ≠ "") (h2 : jsTrim b ≠ "") :
    ∃ p, handleSubmit "create" editToken o b se ch gl rand
        = .createPost p ∧
      p.role = some "user" ∧
      p.token = generateSecureToken rand ∧
      ∃ (a b' c d e : List Char) (y : Char),
        p.token.toList
          = a ++ ('-' :: (b' ++ ('-' :: '4' :: (c ++ ('-' :: y ::
              (d ++ ('-' :: e))))))) ∧
        a.length = 8 ∧ b'.length = 4 ∧ c.length = 3 ∧ d.length = 3 ∧
        e.length = 12 ∧
        ((a ++ b' ++ c ++ d ++ e).all isLowerHexChar) = true ∧
        y ∈ ['8', '9', 'a', 'b'] := by
  refine ⟨{ form := profileFormData o b se ch gl,
            token := generateSecureToken rand, role := some "user" },
    ?_, rfl, rfl, generateSecureToken_shape rand⟩
  simp [handleSubmit, profileFormData, h1, h2]

/-- Witness for C7 at concrete form fields and the all-zero random
stream. -/
theorem handleSubmit_create_defaults_witness :
    (jsTrim "Ann" ≠ "" ∧ jsTrim "Acme" ≠ "") ∧
    ∃ p, handleSubmit "create" none "Ann" "Acme" "tech" "a, b" "g"
        (fun _ => 0) = .createPost p ∧
      p.role = some "user" ∧
      p.token = generateSecureToken (fun _ => 0) ∧
      ∃ (a b' c d e : List Char) (y : Char),
        p.token.toList
          = a ++ ('-' :: (b' ++ ('-' :: '4' :: (c ++ ('-' :: y ::
              (d ++ ('-' :: e))))))) ∧
        a.length = 8 ∧ b'.length = 4 ∧ c.length = 3 ∧ d.length = 3 ∧
        e.length = 12 ∧
        ((a ++ b' ++ c ++ d ++ e).all isLowerHexChar) = true ∧
        y ∈ ['8', '9', 'a', 'b'] :=
  ⟨⟨by decide, by decide⟩,
   handleSubmit_create_defaults none "Ann" "Acme" "tech" "a, b" "g"
     (fun _ => 0) (by decide) (by decide)⟩

/-- C10 counterexample: the standalone-script `validateToken` (unnamed
part_002) does not check `response.ok`, so a non-2xx response whose JSON
body says `valid: true` is passed through — the claim's "response status
not ok implies valid false" fails on that variant. -/
theorem validateTokenNoOkCheck_not_fail_closed :
    (validateTokenNoOkCheck
        (.resp false true
          { valid := true, role := some "admin", user := none })).valid
      = true := by
  decide

/-- C10 amended: both variants are total and return `{valid: false}` on a
rejected fetch or an unparseable body; the ApiService variant is in
addition fail-closed on non-2xx statuses and can report `valid = true`
only from a parsed 2xx body that says so, while the standalone-script
variant returns the parsed body of any response as-is. -/
theorem validateToken_fail_closed (ok jsonOk : Bool)
    (body : TokenValidation) :
    validateToken .netError = invalidResult ∧
    validateTokenNoOkCheck .netError = invalidResult ∧
    (ok = false → validateToken (.resp ok jsonOk body) = invalidResult) ∧
    (jsonOk = false →
      validateToken (.resp ok jsonOk body) = invalidResult) ∧
    ((validateToken (.resp ok jsonOk body)).valid = true →
      ok = true ∧ jsonOk = true ∧ body.valid = true) ∧
    (jsonOk = false →
      validateTokenNoOkCheck (.resp ok jsonOk body) = invalidResult) ∧
    (jsonOk = true →
      validateTokenNoOkCheck (.resp ok jsonOk body) = body) := by
  cases ok <;> cases jsonOk <;>
    simp [validateToken, validateTokenNoOkCheck, invalidResult]

/-- Witness for the amended C10: a non-2xx response is mapped to
`{valid: false}` by the ApiService variant. -/
theorem validateToken_fail_closed_witness :
    validateToken
        (.resp false true { valid := true, role := none, user := none })
      = invalidResult :=
  (validateToken_fail_closed false true
    { valid := true, role := none, user := none }).2.2.1 rfl
